import Mathlib

/-!
Shallow embedding of the LeadForge frontend (Vue single-file components under
`frontend/src`): the column-mapping form (`ColumnMapping.vue`), the business
directory with per-record website lookup and pagination (`BusinessList.vue`),
the upload coordinator (`App.vue`) and the email-generation modal
(`EmailModal`).  JavaScript strings are `String`, optional / possibly-`null`
fields are `Option`, and JavaScript truthiness of strings (empty string is
falsy) is made explicit.
-/

namespace LeadForge

/-- JavaScript truthiness of a string: the empty string is falsy. -/
def strTruthy (s : String) : Bool := !(s == "")

/-- JavaScript truthiness of an optional (possibly `null`/`undefined`) string
field: `null`, `undefined` and `""` are falsy. -/
def optTruthy : Option String → Bool
  | none => false
  | some s => strTruthy s

/-- The JavaScript `a || b` idiom on an optional string `a` with a string
fallback `b`: yields `a` when truthy, else `b`. -/
def jsOr (a : Option String) (b : String) : String :=
  match a with
  | some s => if s == "" then b else s
  | none => b

/-- A toast pushed through `vue-toastification`: `toast.success`,
`toast.warning` or `toast.error` with its message. -/
inductive Toast where
  | success (msg : String)
  | warning (msg : String)
  | error (msg : String)
deriving DecidableEq, Repr

/-! ## Column mapping (`ColumnMapping.vue`) -/

/-- The three required fields of `requiredFields = ['business_name',
'industry', 'location']`. -/
inductive RequiredField where
  | business_name
  | industry
  | location
deriving DecidableEq, Repr

/-- One entry of the `mapping` object: `{ column, displayName }`. -/
structure FieldMapping where
  column : String
  displayName : String
deriving DecidableEq, Repr

/-- The `mapping` data object of `ColumnMapping.vue`, keyed by the three
required fields. -/
structure Mapping where
  business_name : FieldMapping
  industry : FieldMapping
  location : FieldMapping
deriving DecidableEq, Repr

/-- `this.requiredFields` as a list, in source order. -/
def requiredFields : List RequiredField :=
  [.business_name, .industry, .location]

/-- Object indexing `this.mapping[field]`. -/
def Mapping.get (m : Mapping) : RequiredField → FieldMapping
  | .business_name => m.business_name
  | .industry => m.industry
  | .location => m.location

/-- Assignment `this.mapping[field] = v`. -/
def Mapping.set (m : Mapping) : RequiredField → FieldMapping → Mapping
  | .business_name, v => { m with business_name := v }
  | .industry, v => { m with industry := v }
  | .location, v => { m with location := v }

/-- The initial `mapping` from `data()`: every column empty, default display
names. -/
def initialMapping : Mapping where
  business_name := ⟨"", "Business Name"⟩
  industry := ⟨"", "Industry"⟩
  location := ⟨"", "Location"⟩

/-- `isMappingValid`: `this.requiredFields.every(field =>
this.mapping[field].column)` (string truthiness). -/
def isMappingValid (m : Mapping) : Bool :=
  requiredFields.all fun f => strTruthy (m.get f).column

/-- The `:disabled="!isMappingValid"` binding on the Confirm button. -/
def confirmDisabled (m : Mapping) : Bool := !(isMappingValid m)

/-- `confirm()`: emits the mapping only when `isMappingValid` holds. -/
def confirmEmits (m : Mapping) : Option Mapping :=
  if isMappingValid m then some m else none

/-- `isColumnMapped(column)`: `Object.values(this.mapping).some(m => m.column
=== column)`. -/
def isColumnMapped (m : Mapping) (column : String) : Bool :=
  requiredFields.any fun f => (m.get f).column == column

/-- The `:disabled="isColumnMapped(column) && mapping[field].column !==
column"` binding on an option of field `f`'s selector. -/
def optionDisabled (m : Mapping) (f : RequiredField) (column : String) : Bool :=
  isColumnMapped m column && !((m.get f).column == column)

/-- Selecting column `c` in field `f`'s `<select>` (its `v-model` writes
`mapping[field].column`).  The empty option (`value=""`) is always offered;
any other option can be chosen only while not `:disabled`. -/
def selectColumn (m : Mapping) (f : RequiredField) (c : String) : Mapping :=
  if c == "" || !(optionDisabled m f c) then
    m.set f ⟨c, (m.get f).displayName⟩
  else m

/-- Typing into a field's display-name `<input>` (its `v-model` writes
`mapping[field].displayName`). -/
def setDisplayName (m : Mapping) (f : RequiredField) (d : String) : Mapping :=
  m.set f ⟨(m.get f).column, d⟩

/-- Mapping states the component can actually be driven into through its two
inputs, starting from `data()`'s initial mapping. -/
inductive ReachableMapping : Mapping → Prop where
  | init : ReachableMapping initialMapping
  | select {m : Mapping} (f : RequiredField) (c : String) :
      ReachableMapping m → ReachableMapping (selectColumn m f c)
  | label {m : Mapping} (f : RequiredField) (d : String) :
      ReachableMapping m → ReachableMapping (setDisplayName m f d)

/-- No two distinct required fields share a non-empty source column. -/
def columnsDistinct (m : Mapping) : Prop :=
  ∀ f g : RequiredField, f ≠ g → (m.get f).column ≠ "" →
    (m.get f).column ≠ (m.get g).column

theorem Mapping.get_set_same (m : Mapping) (f : RequiredField)
    (v : FieldMapping) : (m.set f v).get f = v := by
  cases f <;> rfl

theorem Mapping.get_set_ne (m : Mapping) (f g : RequiredField)
    (v : FieldMapping) (h : f ≠ g) : (m.set f v).get g = m.get g := by
  cases f <;> cases g <;> first
    | rfl
    | exact absurd rfl h

theorem columnsDistinct_initial : columnsDistinct initialMapping := by
  intro f g _ hne
  cases f <;> exact absurd rfl hne

theorem isColumnMapped_false {m : Mapping} {c : String}
    (h : isColumnMapped m c = false) (f : RequiredField) :
    (m.get f).column ≠ c := by
  intro hc
  have hmem : f ∈ requiredFields := by cases f <;> simp [requiredFields]
  have : isColumnMapped m c = true := by
    unfold isColumnMapped
    exact List.any_eq_true.mpr ⟨f, hmem, by simp [hc]⟩
  simp [this] at h

theorem columnsDistinct_selectColumn {m : Mapping}
    (hm : columnsDistinct m) (f : RequiredField) (c : String) :
    columnsDistinct (selectColumn m f c) := by
  unfold selectColumn
  by_cases hcond : (c == "" || !(optionDisabled m f c)) = true
  · rw [if_pos hcond]
    have hcases : c = "" ∨ isColumnMapped m c = false ∨ (m.get f).column = c := by
      by_cases hc0 : c = ""
      · exact Or.inl hc0
      · have hopt : optionDisabled m f c = false := by
          have hbe : (c == "") = false := by simp [hc0]
          rw [hbe, Bool.false_or, Bool.not_eq_true'] at hcond
          exact hcond
        unfold optionDisabled at hopt
        cases hIC : isColumnMapped m c with
        | false => exact Or.inr (Or.inl rfl)
        | true =>
          rw [hIC, Bool.true_and, Bool.not_eq_false', beq_iff_eq] at hopt
          exact Or.inr (Or.inr hopt)
    intro g h hgh hne
    by_cases hgf : g = f
    · subst hgf
      by_cases hhf : h = g
      · exact absurd hhf.symm hgh
      · rw [Mapping.get_set_same] at hne ⊢
        rw [Mapping.get_set_ne m g h _ (Ne.symm hhf)]
        simp only at hne ⊢
        rcases hcases with h1 | h1 | h1
        · exact absurd h1 hne
        · exact fun he => isColumnMapped_false h1 h he.symm
        · exact h1 ▸ hm g h hgh (h1 ▸ hne)
    · rw [Mapping.get_set_ne m f g _ (Ne.symm hgf)] at hne ⊢
      by_cases hhf : h = f
      · subst hhf
        rw [Mapping.get_set_same]
        simp only
        rcases hcases with h1 | h1 | h1
        · exact h1 ▸ hne
        · exact fun he => isColumnMapped_false h1 g he
        · exact h1 ▸ hm g h hgh hne
      · rw [Mapping.get_set_ne m f h _ (Ne.symm hhf)]
        exact hm g h hgh hne
  · rw [if_neg hcond]
    exact hm

theorem setDisplayName_column (m : Mapping) (f : RequiredField) (d : String)
    (g : RequiredField) :
    ((setDisplayName m f d).get g).column = (m.get g).column := by
  by_cases hgf : f = g
  · subst hgf
    rw [setDisplayName, Mapping.get_set_same]
  · rw [setDisplayName, Mapping.get_set_ne m f g _ hgf]

theorem columnsDistinct_setDisplayName {m : Mapping}
    (hm : columnsDistinct m) (f : RequiredField) (d : String) :
    columnsDistinct (setDisplayName m f d) := by
  intro g h hgh hne
  rw [setDisplayName_column m f d g] at hne
  rw [setDisplayName_column m f d g, setDisplayName_column m f d h]
  exact hm g h hgh hne

theorem ReachableMapping.columnsDistinct {m : Mapping}
    (h : ReachableMapping m) : columnsDistinct m := by
  induction h with
  | init => exact columnsDistinct_initial
  | select f c _ ih => exact columnsDistinct_selectColumn ih f c
  | label f d _ ih => exact columnsDistinct_setDisplayName ih f d

/-! ## Business directory (`BusinessList.vue`) -/

/-- A business record as rendered by `BusinessList.vue`; optional fields are
absent until the backend supplies them. -/
structure Business where
  id : Nat
  business_name : String
  industry : String
  industry_display_name : Option String
  location : String
  city : Option String
  state : Option String
  website : Option String
deriving DecidableEq, Repr

/-- The part of `BusinessList.vue`'s `data()` the per-record website lookup
touches, together with the event loop's set of awaited lookup requests.
`isSearchingWebsite` is a single value (a business id or `null`), exactly as
in `data()`. -/
structure ListState where
  businesses : List Business
  isSearchingWebsite : Option Nat
  inFlight : List Nat
deriving DecidableEq, Repr

/-- Whether business `id`'s Find Website control renders busy: the template
binds `:disabled="isSearchingWebsite === business.id"` and shows
`'Searching...'` under the same condition. -/
def busy (s : ListState) (id : Nat) : Bool :=
  s.isSearchingWebsite == some id

/-- `findWebsite(businessId)` up to its `await`: sets
`this.isSearchingWebsite = businessId` and leaves the request awaited. -/
def findWebsiteStart (s : ListState) (id : Nat) : ListState :=
  { s with isSearchingWebsite := some id, inFlight := id :: s.inFlight }

/-- Resolution of `findWebsite(businessId)`'s `await` with response record
`b`: `findIndex` on `id`, in-place replacement when found, a success toast
when `response.data.business.website` is truthy, a warning toast when not,
and (in `finally`) `this.isSearchingWebsite = null`. -/
def findWebsiteComplete (s : ListState) (id : Nat) (b : Business) :
    ListState × Option Toast :=
  match s.businesses.findIdx? (fun x => x.id == id) with
  | some i =>
      let toast :=
        if optTruthy b.website then
          Toast.success ("Found website for " ++ b.business_name)
        else
          Toast.warning ("No website found for " ++ b.business_name)
      (⟨s.businesses.set i b, none, s.inFlight.erase id⟩, some toast)
  | none => (⟨s.businesses, none, s.inFlight.erase id⟩, none)

/-- Rejection of `findWebsite`'s `await`: the catch shows an error toast and
the `finally` clears `this.isSearchingWebsite`; the list is untouched. -/
def findWebsiteFail (s : ListState) (id : Nat) (e : Option String) :
    ListState × Toast :=
  (⟨s.businesses, none, s.inFlight.erase id⟩,
   Toast.error (jsOr e "Error finding website"))

/-- The `:disabled="currentPage === 1"` binding on the Previous control. -/
def prevDisabled (currentPage : Nat) : Bool := currentPage == 1

/-- The `:disabled="currentPage === totalPages"` binding on the Next
control. -/
def nextDisabled (currentPage totalPages : Nat) : Bool :=
  currentPage == totalPages

/-- The `v-if="totalPages > 1"` guard on the pagination block. -/
def paginationShown (totalPages : Nat) : Bool := decide (1 < totalPages)

/-! ## Upload coordinator (`App.vue`) -/

/-- A DOM `File` as far as `App.vue` inspects it: `name` and MIME `type`. -/
structure JsFile where
  name : String
  fileType : String
deriving DecidableEq, Repr

/-- One `uploadStatus` value: `{ type, message }` rendered in the
`status-message` slot. -/
structure StatusMessage where
  statusType : String
  message : String
deriving DecidableEq, Repr

/-- The `data()` of `App.vue` (the pieces the upload flow touches), plus
`uploadError`, which the code assigns in `handleFileSelect`,
`handleFileDrop` and the upload `catch` although it is declared nowhere in
`data()` and appears nowhere in the template. -/
structure AppState where
  selectedFile : Option JsFile
  isDragover : Bool
  isUploading : Bool
  uploadStatus : Option StatusMessage
  showColumnMapping : Bool
  csvColumns : List String
  columnMapping : Option Mapping
  uploadError : Option String
deriving DecidableEq, Repr

/-- What the inline `status-message` slot shows:
`v-if="uploadStatus"` … `{{ uploadStatus.message }}`. -/
def inlineStatusMessage (s : AppState) : Option StatusMessage :=
  s.uploadStatus

/-- `handleFileSelect(event)`: accept the file only when
`file && file.type === 'text/csv'`; otherwise show an inline error and leave
`selectedFile` alone. -/
def handleFileSelect (s : AppState) (file : Option JsFile) : AppState :=
  match file with
  | some f =>
      if f.fileType == "text/csv" then
        { s with selectedFile := some f, uploadStatus := none,
                 uploadError := none }
      else
        { s with uploadStatus := some ⟨"error", "Please select a valid CSV file"⟩ }
  | none =>
      { s with uploadStatus := some ⟨"error", "Please select a valid CSV file"⟩ }

/-- `handleFileDrop(event)`: same guard as `handleFileSelect`, clearing the
dragover flag and using the drop-specific error message. -/
def handleFileDrop (s : AppState) (file : Option JsFile) : AppState :=
  let s0 := { s with isDragover := false }
  match file with
  | some f =>
      if f.fileType == "text/csv" then
        { s0 with selectedFile := some f, uploadStatus := none,
                  uploadError := none }
      else
        { s0 with uploadStatus := some ⟨"error", "Please drop a valid CSV file"⟩ }
  | none =>
      { s0 with uploadStatus := some ⟨"error", "Please drop a valid CSV file"⟩ }

/-- The multipart request `uploadFile` builds: the selected file plus the
serialized mapping.  `uploadFile` returns without any network activity unless
both `selectedFile` and `columnMapping` are set
(`if (!this.selectedFile || !this.columnMapping) return`). -/
structure UploadRequest where
  file : JsFile
  mapping : Mapping
deriving DecidableEq, Repr

/-- The network request `uploadFile` would issue from state `s`, if any. -/
def uploadRequest (s : AppState) : Option UploadRequest :=
  match s.selectedFile, s.columnMapping with
  | some f, some m => some ⟨f, m⟩
  | _, _ => none

/-- An axios error as the catch blocks consume it:
`error.response?.data?.error` and `error.message`. -/
structure ErrorInfo where
  responseDataError : Option String
  message : Option String
deriving DecidableEq, Repr

/-- `error.response?.data?.error || 'Error uploading file'`. -/
def uploadErrorMessage (e : ErrorInfo) : String :=
  jsOr e.responseDataError "Error uploading file"

/-- How the awaited `POST /upload` ends. -/
inductive UploadOutcome where
  | success (records_count : Nat)
  | failure (e : ErrorInfo)
deriving DecidableEq, Repr

/-- A complete run of `uploadFile()` whose `await` ends in `outcome`.
Returns the new state, the toast pushed (if any), and whether
`this.$refs.businessList?.fetchBusinesses()` was invoked. -/
def uploadFileRun (s : AppState) (outcome : UploadOutcome) :
    AppState × Option Toast × Bool :=
  if s.selectedFile.isNone || s.columnMapping.isNone then
    (s, none, false)
  else
    let s0 := { s with isUploading := true, uploadStatus := none,
                       uploadError := none }
    match outcome with
    | .success n =>
        ({ s0 with
            uploadStatus := some ⟨"success",
              "Successfully uploaded " ++ toString n ++ " records"⟩,
            selectedFile := none,
            columnMapping := none,
            isUploading := false },
         some (Toast.success "File uploaded successfully"), true)
    | .failure e =>
        let msg := uploadErrorMessage e
        ({ s0 with uploadError := some msg, isUploading := false },
         some (Toast.error msg), false)

/-! ## Email generation modal (`EmailModal.vue`) -/

/-- The `data()` of `EmailModal`: the stored email text, the loading flag and
the error slot. -/
structure ModalState where
  email : String
  loading : Bool
  error : Option String
deriving DecidableEq, Repr

/-- What the modal body renders: `v-if="loading"` the spinner,
`v-else-if="error"` the error (string truthiness), `v-else` the email text
with the copy button. -/
inductive ModalBody where
  | loadingView
  | errorView (msg : String)
  | emailView (text : String)
deriving DecidableEq, Repr

/-- The modal body chosen by the template for state `s`. -/
def modalBody (s : ModalState) : ModalBody :=
  if s.loading then .loadingView
  else if optTruthy s.error then .errorView (s.error.getD "")
  else .emailView s.email

/-- The body of a `POST /generate_email` response as `generateEmail` reads
it: `response.data.email`. -/
structure GenResponseBody where
  email : Option String
deriving DecidableEq, Repr

/-- How the awaited `POST /generate_email` ends: an HTTP success with a body,
or a rejection carrying an axios error. -/
inductive GenOutcome where
  | httpSuccess (body : GenResponseBody)
  | httpFailure (e : ErrorInfo)
deriving DecidableEq, Repr

/-- `error.response?.data?.error || error.message || 'Error generating
email'`. -/
def genErrorMessage (e : ErrorInfo) : String :=
  jsOr e.responseDataError (jsOr e.message "Error generating email")

/-- A complete run of `generateEmail()` whose `await` ends in `outcome`:
sets `loading`/clears `error` on entry; on an HTTP success whose body lacks a
truthy `email` field it throws `Error('No email content in response')` into
its own catch; the catch stores the extracted message in `this.error` and
pushes an error toast; `finally` clears `loading`. -/
def generateEmailRun (s : ModalState) (outcome : GenOutcome) :
    ModalState × Option Toast :=
  let s0 := { s with loading := true, error := none }
  match outcome with
  | .httpSuccess body =>
      if optTruthy body.email then
        ({ s0 with email := body.email.getD "", loading := false }, none)
      else
        let msg := genErrorMessage ⟨none, some "No email content in response"⟩
        ({ s0 with error := some msg, loading := false },
         some (Toast.error msg))
  | .httpFailure e =>
      let msg := genErrorMessage e
      ({ s0 with error := some msg, loading := false },
       some (Toast.error msg))

/-! ## Claim theorems -/

/-- C2: the Confirm action is enabled (its `:disabled` binding is off) iff
every one of the three required fields has a non-empty source column
selected, and the display-label texts play no part: two mappings with the
same columns yield the same enablement regardless of labels. -/
theorem C2_confirm_enabled_iff_columns_nonempty (m m' : Mapping)
    (hcols : ∀ f, (m.get f).column = (m'.get f).column) :
    (confirmDisabled m = false ↔
      ((m.get .business_name).column ≠ "" ∧ (m.get .industry).column ≠ "" ∧
        (m.get .location).column ≠ "")) ∧
    confirmDisabled m = confirmDisabled m' := by
  have hv : isMappingValid m = isMappingValid m' := by
    unfold isMappingValid
    simp only [requiredFields, List.all_cons, List.all_nil]
    rw [hcols .business_name, hcols .industry, hcols .location]
  constructor
  · simp [confirmDisabled, isMappingValid, requiredFields, strTruthy]
  · unfold confirmDisabled
    rw [hv]

/-- C2 witness: a fully mapped state is enabled, and changing only the labels
changes nothing. -/
theorem C2_witness :
    (confirmDisabled ⟨⟨"biz", "x"⟩, ⟨"cat", "y"⟩, ⟨"loc", "z"⟩⟩ = false ↔
      ((Mapping.get ⟨⟨"biz", "x"⟩, ⟨"cat", "y"⟩, ⟨"loc", "z"⟩⟩
          .business_name).column ≠ "" ∧
        (Mapping.get ⟨⟨"biz", "x"⟩, ⟨"cat", "y"⟩, ⟨"loc", "z"⟩⟩
          .industry).column ≠ "" ∧
        (Mapping.get ⟨⟨"biz", "x"⟩, ⟨"cat", "y"⟩, ⟨"loc", "z"⟩⟩
          .location).column ≠ "")) ∧
    confirmDisabled ⟨⟨"biz", "x"⟩, ⟨"cat", "y"⟩, ⟨"loc", "z"⟩⟩ =
      confirmDisabled ⟨⟨"biz", "p"⟩, ⟨"cat", "q"⟩, ⟨"loc", "r"⟩⟩ :=
  C2_confirm_enabled_iff_columns_nonempty
    ⟨⟨"biz", "x"⟩, ⟨"cat", "y"⟩, ⟨"loc", "z"⟩⟩
    ⟨⟨"biz", "p"⟩, ⟨"cat", "q"⟩, ⟨"loc", "r"⟩⟩
    (by intro f; cases f <;> rfl)

/-- C3: in any mapping state the component can actually reach, a header that
is the selected source column of field `A` is disabled in any other field
`B`'s selector, while staying enabled in `A`'s own selector. -/
theorem C3_assigned_header_disabled_for_others (m : Mapping)
    (A B : RequiredField) (h : String) (hr : ReachableMapping m)
    (hAB : A ≠ B) (hA : (m.get A).column = h) (hne : h ≠ "") :
    optionDisabled m B h = true ∧ optionDisabled m A h = false := by
  have hd := hr.columnsDistinct
  have hmem : A ∈ requiredFields := by cases A <;> simp [requiredFields]
  have hmapped : isColumnMapped m h = true := by
    unfold isColumnMapped
    exact List.any_eq_true.mpr ⟨A, hmem, by simp [hA]⟩
  constructor
  · unfold optionDisabled
    rw [hmapped, Bool.true_and, Bool.not_eq_true']
    cases hc : ((m.get B).column == h) with
    | false => rfl
    | true =>
      exfalso
      exact hd A B hAB (by rw [hA]; exact hne)
        (by rw [hA]; exact (beq_iff_eq.mp hc).symm)
  · simp [optionDisabled, hA]

/-- C3 witness: after selecting `"col1"` for business name from the initial
state, `"col1"` is disabled in the industry selector and enabled in the
business-name selector. -/
theorem C3_witness :
    optionDisabled (selectColumn initialMapping .business_name "col1")
      .industry "col1" = true ∧
    optionDisabled (selectColumn initialMapping .business_name "col1")
      .business_name "col1" = false :=
  C3_assigned_header_disabled_for_others
    (selectColumn initialMapping .business_name "col1")
    .business_name .industry "col1"
    (ReachableMapping.select .business_name "col1" ReachableMapping.init)
    (by decide) (by decide) (by decide)

/-- C4: with a backend-reported `total_pages = N` and current page `p` in
`1..N`, the Next control's `:disabled` binding holds exactly when `p = N`
and the Previous control's exactly when `p = 1`. -/
theorem C4_pagination_disabled_at_bounds (p N : Nat)
    (_hlo : 1 ≤ p) (_hhi : p ≤ N) :
    (nextDisabled p N = true ↔ p = N) ∧ (prevDisabled p = true ↔ p = 1) := by
  constructor <;> simp [nextDisabled, prevDisabled]

/-- C4 witness at page 1 of 3: Next enabled, Previous disabled. -/
theorem C4_witness :
    (nextDisabled 1 3 = true ↔ 1 = 3) ∧ (prevDisabled 1 = true ↔ 1 = 1) :=
  C4_pagination_disabled_at_bounds 1 3 (by decide) (by decide)

/-- A displayed record with id 1 and no website yet. -/
def bakeryNoSite : Business :=
  ⟨1, "Best Bakery", "Food & Beverage", none, "Los Angeles", none, none, none⟩

/-- A displayed record with id 2 and no website yet. -/
def acmeNoSite : Business :=
  ⟨2, "Acme Corp", "Technology", none, "New York", none, none, none⟩

/-- A directory displaying records 1 and 2, with record 2's lookup in flight
(its button busy). -/
def c1State : ListState := ⟨[bakeryNoSite, acmeNoSite], some 2, [2]⟩

/-- C1 counterexample: with record 2's lookup in flight and busy, triggering
a lookup for record 1 leaves 2's request in flight but clears 2's busy
display — `isSearchingWebsite` is one shared slot, so Y's busy state is
altered. -/
theorem C1_counterexample :
    busy c1State 2 = true ∧
    2 ∈ (findWebsiteStart c1State 1).inFlight ∧
    busy (findWebsiteStart c1State 1) 2 = false := by
  refine ⟨rfl, ?_, rfl⟩
  simp [findWebsiteStart, c1State]

/-- C1 (amended): the busy marker is a single shared slot.  Triggering a
lookup for `x` while `y`'s lookup is in flight marks `x` busy, stops `y`'s
control from showing busy even though `y` is still in flight, and the
completion of `x`'s lookup clears the shared slot entirely rather than only
`x`'s own busy state. -/
theorem C1_amended_shared_busy_slot (s : ListState) (x y : Nat)
    (b : Business) (hxy : x ≠ y) (hy : y ∈ s.inFlight) :
    busy (findWebsiteStart s x) x = true ∧
    busy (findWebsiteStart s x) y = false ∧
    y ∈ (findWebsiteStart s x).inFlight ∧
    (findWebsiteComplete (findWebsiteStart s x) x b).1.isSearchingWebsite
      = none := by
  refine ⟨?_, ?_, ?_, ?_⟩
  · simp [busy, findWebsiteStart]
  · simp [busy, findWebsiteStart]
    intro hc
    exact absurd hc hxy
  · simp [findWebsiteStart]
    exact Or.inr hy
  · cases hfi : (findWebsiteStart s x).businesses.findIdx?
        (fun z => z.id == x) with
    | some i => simp [findWebsiteComplete, hfi]
    | none => simp [findWebsiteComplete, hfi]

/-- C1 amended-claim witness at records 1 and 2. -/
theorem C1_amended_witness :
    busy (findWebsiteStart c1State 1) 1 = true ∧
    busy (findWebsiteStart c1State 1) 2 = false ∧
    2 ∈ (findWebsiteStart c1State 1).inFlight ∧
    (findWebsiteComplete (findWebsiteStart c1State 1) 1
      bakeryNoSite).1.isSearchingWebsite = none :=
  C1_amended_shared_busy_slot c1State 1 2 bakeryNoSite (by decide) (by decide)

/-- The CSV file of the spec's upload scenario. -/
def bizCsv : JsFile := ⟨"businesses.csv", "text/csv"⟩

/-- A confirmed mapping `business_name→biz`, `industry→cat`,
`location→loc`. -/
def bizMapping : Mapping :=
  ⟨⟨"biz", "Business Name"⟩, ⟨"cat", "Industry"⟩, ⟨"loc", "Location"⟩⟩

/-- An `App.vue` state ready to upload: a CSV selected and a mapping
confirmed. -/
def readyState : AppState :=
  ⟨some bizCsv, false, false, none, false, ["biz", "cat", "loc"],
    some bizMapping, none⟩

/-- C5 counterexample: after a successful upload the upload status is not
reset to its initial cleared value — it holds the success message. -/
theorem C5_counterexample :
    (uploadFileRun readyState (.success 3)).1.uploadStatus ≠ none ∧
    (uploadFileRun readyState (.success 3)).1.uploadStatus =
      some ⟨"success", "Successfully uploaded 3 records"⟩ := by
  have h : (uploadFileRun readyState (.success 3)).1.uploadStatus =
      some ⟨"success", "Successfully uploaded 3 records"⟩ := rfl
  exact ⟨by rw [h]; simp, h⟩

/-- C5 (amended): a successful upload with backend-reported count `n`
reports `n` ingested records through the success status message, resets the
selected file and the column mapping, pushes a success toast, and triggers a
refresh of the business directory; the upload status is not cleared but set
to that success message. -/
theorem C5_amended_upload_success (s : AppState) (n : Nat)
    (hf : s.selectedFile.isSome = true) (hm : s.columnMapping.isSome = true) :
    (uploadFileRun s (.success n)).1.uploadStatus =
      some ⟨"success", "Successfully uploaded " ++ toString n ++ " records"⟩ ∧
    (uploadFileRun s (.success n)).1.selectedFile = none ∧
    (uploadFileRun s (.success n)).1.columnMapping = none ∧
    (uploadFileRun s (.success n)).2.1 =
      some (Toast.success "File uploaded successfully") ∧
    (uploadFileRun s (.success n)).2.2 = true := by
  have hg : (s.selectedFile.isNone || s.columnMapping.isNone) = false := by
    rcases hs : s.selectedFile with _ | f
    · rw [hs] at hf
      simp at hf
    · rcases hc : s.columnMapping with _ | m
      · rw [hc] at hm
        simp at hm
      · simp [hs, hc]
  simp [uploadFileRun, hg]

/-- C5 amended-claim witness: uploading 3 records from the ready state. -/
theorem C5_amended_witness :
    (uploadFileRun readyState (.success 3)).1.uploadStatus =
      some ⟨"success", "Successfully uploaded " ++ toString 3 ++ " records"⟩ ∧
    (uploadFileRun readyState (.success 3)).1.selectedFile = none ∧
    (uploadFileRun readyState (.success 3)).1.columnMapping = none ∧
    (uploadFileRun readyState (.success 3)).2.1 =
      some (Toast.success "File uploaded successfully") ∧
    (uploadFileRun readyState (.success 3)).2.2 = true :=
  C5_amended_upload_success readyState 3 rfl rfl

/-- C6 (code bug): when the upload fails with backend payload
`{error: "boom"}`, the verbatim message is pushed to a toast and stored in
`uploadError`, but nothing is shown inline: the dedicated `status-message`
slot renders `uploadStatus`, which the catch leaves cleared, and
`uploadError` is assigned nowhere in `data()` and rendered nowhere in the
template. -/
theorem C6_code_bug_inline_error_not_shown :
    (uploadFileRun readyState (.failure ⟨some "boom", none⟩)).2.1 =
      some (Toast.error "boom") ∧
    (uploadFileRun readyState (.failure ⟨some "boom", none⟩)).1.uploadError =
      some "boom" ∧
    inlineStatusMessage
      (uploadFileRun readyState (.failure ⟨some "boom", none⟩)).1 = none :=
  ⟨rfl, rfl, rfl⟩

/-- C7: a selected or dropped file whose MIME type is not `text/csv` is
rejected on the spot: an inline error appears, the selected-file state is
left untouched, and the upload request `uploadFile` would issue is unchanged
and in particular never carries the rejected file (given that any previously
selected file was CSV-typed, as both accepting handlers enforce). -/
theorem C7_noncsv_never_uploaded (s : AppState) (f : JsFile)
    (hf : f.fileType ≠ "text/csv")
    (hw : ∀ g, s.selectedFile = some g → g.fileType = "text/csv") :
    (handleFileSelect s (some f)).selectedFile = s.selectedFile ∧
    inlineStatusMessage (handleFileSelect s (some f)) =
      some ⟨"error", "Please select a valid CSV file"⟩ ∧
    (handleFileDrop s (some f)).selectedFile = s.selectedFile ∧
    inlineStatusMessage (handleFileDrop s (some f)) =
      some ⟨"error", "Please drop a valid CSV file"⟩ ∧
    uploadRequest (handleFileSelect s (some f)) = uploadRequest s ∧
    uploadRequest (handleFileDrop s (some f)) = uploadRequest s ∧
    ((uploadRequest (handleFileSelect s (some f))).all
      fun r => !(r.file == f)) = true ∧
    ((uploadRequest (handleFileDrop s (some f))).all
      fun r => !(r.file == f)) = true := by
  have hfe : (f.fileType == "text/csv") = false := by simp [hf]
  have hsel : handleFileSelect s (some f) =
      { s with uploadStatus := some ⟨"error", "Please select a valid CSV file"⟩ } := by
    simp [handleFileSelect, hfe]
  have hdrop : handleFileDrop s (some f) =
      { s with isDragover := false,
               uploadStatus := some ⟨"error", "Please drop a valid CSV file"⟩ } := by
    simp [handleFileDrop, hfe]
  have hreqsel : uploadRequest (handleFileSelect s (some f)) =
      uploadRequest s := by
    rw [hsel]
    rfl
  have hreqdrop : uploadRequest (handleFileDrop s (some f)) =
      uploadRequest s := by
    rw [hdrop]
    rfl
  have hall : ((uploadRequest s).all fun r => !(r.file == f)) = true := by
    rcases hs : s.selectedFile with _ | g
    · simp [uploadRequest, hs]
    · rcases hc : s.columnMapping with _ | m
      · simp [uploadRequest, hs, hc]
      · have hg : g.fileType = "text/csv" := hw g hs
        have hgf : ¬(g = f) := by
          intro he
          exact hf (by rw [← he]; exact hg)
        simp [uploadRequest, hs, hc, Option.all, hgf]
  refine ⟨by rw [hsel], by rw [hsel]; rfl, by rw [hdrop], by rw [hdrop]; rfl,
    hreqsel, hreqdrop, by rw [hreqsel]; exact hall, by rw [hreqdrop]; exact hall⟩

/-- A non-CSV file a user might try to upload. -/
def pdfFile : JsFile := ⟨"leads.pdf", "application/pdf"⟩

/-- C7 witness: dropping or selecting a PDF on the ready state is rejected
and the pending upload request still carries only the previously selected
CSV. -/
theorem C7_witness :
    (handleFileSelect readyState (some pdfFile)).selectedFile =
      readyState.selectedFile ∧
    inlineStatusMessage (handleFileSelect readyState (some pdfFile)) =
      some ⟨"error", "Please select a valid CSV file"⟩ ∧
    (handleFileDrop readyState (some pdfFile)).selectedFile =
      readyState.selectedFile ∧
    inlineStatusMessage (handleFileDrop readyState (some pdfFile)) =
      some ⟨"error", "Please drop a valid CSV file"⟩ ∧
    uploadRequest (handleFileSelect readyState (some pdfFile)) =
      uploadRequest readyState ∧
    uploadRequest (handleFileDrop readyState (some pdfFile)) =
      uploadRequest readyState ∧
    ((uploadRequest (handleFileSelect readyState (some pdfFile))).all
      fun r => !(r.file == pdfFile)) = true ∧
    ((uploadRequest (handleFileDrop readyState (some pdfFile))).all
      fun r => !(r.file == pdfFile)) = true :=
  C7_noncsv_never_uploaded readyState pdfFile (by decide)
    (by intro g hg; rw [← Option.some.inj hg]; rfl)

/-- C8: when a website lookup for a displayed record resolves, the record at
its index is replaced by the backend's record; if that record carries no
website the field stays absent and a warning toast fires, and a lookup whose
record does carry a (truthy) website fires a success toast instead. -/
theorem C8_lookup_no_website_warns (s : ListState) (id : Nat)
    (b bw : Business) (i : Nat)
    (hidx : s.businesses.findIdx? (fun x => x.id == id) = some i)
    (hb : b.website = none) (hbw : optTruthy bw.website = true) :
    (findWebsiteComplete s id b).1.businesses[i]? = some b ∧
    (findWebsiteComplete s id b).2 =
      some (Toast.warning ("No website found for " ++ b.business_name)) ∧
    (findWebsiteComplete s id bw).2 =
      some (Toast.success ("Found website for " ++ bw.business_name)) := by
  have hlen : i < s.businesses.length :=
    (List.findIdx?_eq_some_iff_findIdx_eq.mp hidx).1
  refine ⟨?_, ?_, ?_⟩
  · simp [findWebsiteComplete, hidx]
    exact List.getElem?_set_eq_of_lt b hlen
  · simp [findWebsiteComplete, hidx, hb, optTruthy]
  · simp [findWebsiteComplete, hidx, hbw]

/-- The backend's enriched version of `acmeNoSite` with a discovered
website. -/
def acmeWithSite : Business :=
  ⟨2, "Acme Corp", "Technology", none, "New York", none, none,
    some "https://acme.example"⟩

/-- A directory showing exactly the Acme record, no lookup running. -/
def acmeList : ListState := ⟨[acmeNoSite], none, []⟩

/-- C8 witness on the one-record directory. -/
theorem C8_witness :
    (findWebsiteComplete acmeList 2 acmeNoSite).1.businesses[0]? =
      some acmeNoSite ∧
    (findWebsiteComplete acmeList 2 acmeNoSite).2 =
      some (Toast.warning ("No website found for " ++
        acmeNoSite.business_name)) ∧
    (findWebsiteComplete acmeList 2 acmeWithSite).2 =
      some (Toast.success ("Found website for " ++
        acmeWithSite.business_name)) :=
  C8_lookup_no_website_warns acmeList 2 acmeNoSite acmeWithSite 0
    (by decide) rfl rfl

/-- C9: an email-generation call failing with backend payload
`{error: x}` (`x` non-empty, hence truthy) moves the generator to the
errored state holding exactly `x`, the modal body shows `x`, an error toast
carrying `x` fires, and the previously stored email text is not what the
modal shows. -/
theorem C9_generation_backend_error_verbatim (s : ModalState) (x : String)
    (em : Option String) (hx : x ≠ "") :
    (generateEmailRun s (.httpFailure ⟨some x, em⟩)).1.error = some x ∧
    modalBody (generateEmailRun s (.httpFailure ⟨some x, em⟩)).1 =
      ModalBody.errorView x ∧
    (generateEmailRun s (.httpFailure ⟨some x, em⟩)).2 =
      some (Toast.error x) ∧
    (generateEmailRun s (.httpFailure ⟨some x, em⟩)).1.email = s.email ∧
    modalBody (generateEmailRun s (.httpFailure ⟨some x, em⟩)).1 ≠
      ModalBody.emailView s.email := by
  have hmsg : genErrorMessage ⟨some x, em⟩ = x := by
    simp [genErrorMessage, jsOr, hx]
  refine ⟨?_, ?_, ?_, ?_, ?_⟩ <;>
    simp [generateEmailRun, hmsg, modalBody, optTruthy, strTruthy, hx]

/-- C9 witness: the spec's scenario `{error: "x"}` against a modal that had
text displayed. -/
theorem C9_witness :
    (generateEmailRun ⟨"old email", false, none⟩
      (.httpFailure ⟨some "x", none⟩)).1.error = some "x" ∧
    modalBody (generateEmailRun ⟨"old email", false, none⟩
      (.httpFailure ⟨some "x", none⟩)).1 = ModalBody.errorView "x" ∧
    (generateEmailRun ⟨"old email", false, none⟩
      (.httpFailure ⟨some "x", none⟩)).2 = some (Toast.error "x") ∧
    (generateEmailRun ⟨"old email", false, none⟩
      (.httpFailure ⟨some "x", none⟩)).1.email =
      ModalState.email ⟨"old email", false, none⟩ ∧
    modalBody (generateEmailRun ⟨"old email", false, none⟩
      (.httpFailure ⟨some "x", none⟩)).1 ≠
      ModalBody.emailView (ModalState.email ⟨"old email", false, none⟩) :=
  C9_generation_backend_error_verbatim ⟨"old email", false, none⟩ "x" none
    (by decide)

/-- C10: an HTTP-success generation response whose body lacks a truthy
`email` field still lands in the errored state with the thrown message
`"No email content in response"`, pushes it as an error toast, leaves the
stored email text unchanged, and the modal shows the error, not the email —
a 2xx response alone is not enough to display. -/
theorem C10_empty_success_body_errors (s : ModalState)
    (body : GenResponseBody) (hb : optTruthy body.email = false) :
    (generateEmailRun s (.httpSuccess body)).1.error =
      some "No email content in response" ∧
    (generateEmailRun s (.httpSuccess body)).2 =
      some (Toast.error "No email content in response") ∧
    (generateEmailRun s (.httpSuccess body)).1.email = s.email ∧
    modalBody (generateEmailRun s (.httpSuccess body)).1 =
      ModalBody.errorView "No email content in response" := by
  rcases body with ⟨be⟩
  cases be with
  | none => exact ⟨rfl, rfl, rfl, rfl⟩
  | some e =>
    have hse : strTruthy e = false := hb
    have he : e = "" := by simpa [strTruthy] using hse
    subst he
    exact ⟨rfl, rfl, rfl, rfl⟩

/-- C10 witness: a 2xx response with no `email` field at all. -/
theorem C10_witness :
    (generateEmailRun ⟨"old email", false, none⟩
      (.httpSuccess ⟨none⟩)).1.error =
      some "No email content in response" ∧
    (generateEmailRun ⟨"old email", false, none⟩
      (.httpSuccess ⟨none⟩)).2 =
      some (Toast.error "No email content in response") ∧
    (generateEmailRun ⟨"old email", false, none⟩
      (.httpSuccess ⟨none⟩)).1.email =
      ModalState.email ⟨"old email", false, none⟩ ∧
    modalBody (generateEmailRun ⟨"old email", false, none⟩
      (.httpSuccess ⟨none⟩)).1 =
      ModalBody.errorView "No email content in response" :=
  C10_empty_success_body_errors ⟨"old email", false, none⟩ ⟨none⟩ rfl

end LeadForge
